import Mathlib

/-!
Verification development for an AI cloud-pricing agent.

The program under study answers questions about cloud GPU pricing through
four data components: a catalog store of GPU instance records
(`src/tools/search_tool.py`), a pairwise price comparator and a market-trend
table (`src/tools/external_api.py`), a knowledge-document store
(`src/tools/vector_store.py`), and an agent that registers the four
callable tools (`src/agents/cloud_pricing_agent.py`).

This file gives a shallow embedding of those operations.  Python dicts
become association lists (insertion order preserved), optional arguments
become `Option`, and Python truthiness tests on filter arguments
(`if gpu_type and ...`) are transcribed as explicit emptiness / zero tests.

Number representation: every decimal constant of the source is carried in
fixed point — dollar amounts in cents (`3.06` ↦ `306`), percentages in
tenths of a percent (`-5.2` ↦ `-52`).  All shipped constants have at most
two (respectively one) decimal places, so this embedding is exact; the
scaling by a positive constant preserves every order comparison, equality
and zero test the code performs, and makes every definition reducible by
`decide`.  `random.shuffle` on a result list is omitted: every property
proved below is invariant under permutation of the result (membership,
emptiness, length).
-/

namespace CloudPricing

/-- Python `str.upper()`: uppercase each character (all strings involved
are ASCII). -/
def upperStr (s : String) : String := ⟨s.data.map Char.toUpper⟩

/-- Python `str.lower()`: lowercase each character. -/
def lowerStr (s : String) : String := ⟨s.data.map Char.toLower⟩

/-! ## Catalog store (`src/tools/search_tool.py`) -/

/-- One GPU instance record, the value part of an entry of the `"gpus"`
dict of a provider in `_create_default_data`.  `price_per_hour` is in
cents (the source literal `3.06` dollars is stored as `306`). -/
structure InstanceData where
  name : String
  gpu_type : String
  gpu_count : Nat
  vcpus : Nat
  memory_gb : Nat
  price_per_hour : Nat
  region : String
deriving Repr, DecidableEq

/-- The rows of one provider: instance-type key to record, in source order. -/
abbrev GpuRows := List (String × InstanceData)

/-- The `"cloud_providers"` mapping: provider name to its `"gpus"` rows. -/
abbrev PricingData := List (String × GpuRows)

/-- `MockSearchTool._create_default_data`, the built-in default dataset used
when the seed file `data/pricing_data.json` is absent.  Prices in cents:
`306` is the source's `3.06`, `1224` is `12.24`, `2448` is `24.48`,
`90` is `0.90`, `180` is `1.80`, `360` is `3.60`, `70` is `0.70`,
`140` is `1.40`, `280` is `2.80`. -/
def createDefaultData : PricingData :=
  [ ("AWS",
      [ ("p3.2xlarge", ⟨"P3.2xlarge", "V100", 1, 8, 61, 306, "us-east-1"⟩),
        ("p3.8xlarge", ⟨"P3.8xlarge", "V100", 4, 32, 244, 1224, "us-east-1"⟩),
        ("p3.16xlarge", ⟨"P3.16xlarge", "V100", 8, 64, 488, 2448, "us-east-1"⟩) ]),
    ("Azure",
      [ ("NC6", ⟨"NC6", "K80", 1, 6, 56, 90, "East US"⟩),
        ("NC12", ⟨"NC12", "K80", 2, 12, 112, 180, "East US"⟩),
        ("NC24", ⟨"NC24", "K80", 4, 24, 224, 360, "East US"⟩) ]),
    ("GCP",
      [ ("n1-standard-8", ⟨"n1-standard-8 with Tesla K80", "K80", 1, 8, 30, 70, "us-central1"⟩),
        ("n1-standard-16", ⟨"n1-standard-16 with Tesla K80", "K80", 2, 16, 60, 140, "us-central1"⟩),
        ("n1-standard-32", ⟨"n1-standard-32 with Tesla K80", "K80", 4, 32, 120, 280, "us-central1"⟩) ]) ]

/-- `MockSearchTool._load_mock_data`: the seed file contents when present,
otherwise (`FileNotFoundError`) the built-in default dataset. -/
def loadMockData (fileData : Option PricingData) : PricingData :=
  match fileData with
  | some d => d
  | none => createDefaultData

/-- One element of the result list of `search_gpu_pricing`: the provider and
instance-type keys merged with the record fields. -/
structure SearchResult where
  provider : String
  instance_type : String
  data : InstanceData
deriving Repr, DecidableEq

/-- The `gpu_type` filter test: `if gpu_type and instance_data["gpu_type"] != gpu_type: continue`.
A `none` argument or an empty string (falsy in Python) disables the filter. -/
def passGpu (gpu_type : Option String) (d : InstanceData) : Bool :=
  match gpu_type with
  | none => true
  | some s => if s = "" then true else decide (d.gpu_type = s)

/-- The `min_gpu_count` filter test: `if min_gpu_count and instance_data["gpu_count"] < min_gpu_count: continue`.
A `none` argument or `0` (falsy) disables the filter.  The argument is an
`Int` because the source accepts any Python int. -/
def passMin (min_gpu_count : Option Int) (d : InstanceData) : Bool :=
  match min_gpu_count with
  | none => true
  | some n => if n = 0 then true else decide (n ≤ (d.gpu_count : Int))

/-- The `max_price` filter test (argument in cents):
`if max_price and instance_data["price_per_hour"] > max_price: continue`.
A `none` argument or `0` (falsy, the source's `0` or `0.0`) disables the
filter. -/
def passMax (max_price : Option Int) (d : InstanceData) : Bool :=
  match max_price with
  | none => true
  | some q => if q = 0 then true else decide ((d.price_per_hour : Int) ≤ q)

/-- Conjunction of the three per-record filter tests, in source order. -/
def rowMatches (g : Option String) (m : Option Int) (x : Option Int) (d : InstanceData) : Bool :=
  passGpu g d && passMin m d && passMax x d

/-- `providers_to_search = [provider] if provider else self.pricing_data["cloud_providers"].keys()`.
An empty string is falsy, so it selects all providers like `None`. -/
def providersToSearch (data : PricingData) (provider : Option String) : List String :=
  match provider with
  | none => data.map Prod.fst
  | some s => if s = "" then data.map Prod.fst else [s]

/-- The inner loop body of `search_gpu_pricing` for one provider block:
keep the rows passing all filters, tagged with the provider name. -/
def rowToResults (prov : String) (g : Option String) (m : Option Int) (x : Option Int)
    (rows : GpuRows) : List SearchResult :=
  rows.filterMap fun row =>
    if rowMatches g m x row.2 then some ⟨prov, row.1, row.2⟩ else none

/-- `MockSearchTool.search_gpu_pricing` (without the final `random.shuffle`):
iterate the selected providers, skip those absent from the data
(`if prov not in ...: continue`), and collect the rows passing the filters. -/
def searchGpuPricing (data : PricingData) (provider : Option String)
    (g : Option String) (m : Option Int) (x : Option Int) : List SearchResult :=
  (providersToSearch data provider).flatMap fun prov =>
    match data.lookup prov with
    | none => []
    | some rows => rowToResults prov g m x rows

/-- Every record of the catalog in storage order, tagged with its provider:
the result `search_gpu_pricing` produces when no filter is active. -/
def allRecords (data : PricingData) : List SearchResult :=
  data.flatMap fun pr => pr.2.map fun row => ⟨pr.1, row.1, row.2⟩

/-- The provider filter as a per-record test: a `none` or empty-string
(falsy) provider filter accepts everything, otherwise exact string
equality — the effect of `providers_to_search` restricting the iteration. -/
def passProv (p : Option String) (prov : String) : Bool :=
  match p with
  | none => true
  | some s => if s = "" then true else decide (prov = s)

/-- All four filter tests applied to one tagged record. -/
def passAll (p : Option String) (g : Option String) (m : Option Int) (x : Option Int)
    (r : SearchResult) : Bool :=
  passProv p r.provider && rowMatches g m x r.data

/-- `b` occurs at the start of `l` (character lists). -/
def isPrefixL : List Char → List Char → Bool
  | [], _ => true
  | _ :: _, [] => false
  | a :: as, b :: bs => a == b && isPrefixL as bs

/-- `sub` occurs as a contiguous substring of `hay` (character lists),
the semantics of the Python `in` operator on strings. -/
def containsSubL (hay sub : List Char) : Bool :=
  match hay with
  | [] => sub.isEmpty
  | _ :: rest => isPrefixL sub hay || containsSubL rest sub

/-- Python `sub in hay` on strings. -/
def containsSub (hay sub : String) : Bool :=
  containsSubL hay.toList sub.toList

/-- The first branch test of `search_general`:
`"gpu" in query_lower and ("price" in query_lower or "cost" in query_lower)`. -/
def gpuPriceQuery (query : String) : Bool :=
  let q := lowerStr query
  containsSub q "gpu" && (containsSub q "price" || containsSub q "cost")

/-- The second branch test: `"cloud" in query_lower and "provider" in query_lower`. -/
def cloudProviderQuery (query : String) : Bool :=
  let q := lowerStr query
  containsSub q "cloud" && containsSub q "provider"

/-- The three result shapes of `search_general`: a list of pricing records,
a list of provider names, or a plain text answer. -/
inductive GeneralResult where
  | gpuPricing (results : List SearchResult)
  | cloudProviders (providers : List String)
  | general (text : String)
deriving Repr, DecidableEq

/-- `MockSearchTool.search_general`: route the query by substring tests; the
gpu-price branch returns the full unfiltered `search_gpu_pricing` result. -/
def searchGeneral (data : PricingData) (query : String) : GeneralResult :=
  if gpuPriceQuery query then
    .gpuPricing (searchGpuPricing data none none none none)
  else if cloudProviderQuery query then
    .cloudProviders (data.map Prod.fst)
  else
    .general (s!"Mock search results for: {query}")

/-! ## Comparator (`src/tools/external_api.py`, `compare_prices` route) -/

/-- One entry of `mock_comparisons`.  `aPrice` is the value (in cents)
stored under the `"<first key provider, lowercased>_price"` field of the
source dict and `bPrice` the one under the second key provider's field.
`savings_percent` is in tenths of a percent (`8.5` ↦ `85`). -/
structure CompEntry where
  aPrice : Nat
  bPrice : Nat
  recommendation : String
  savings_percent : Nat
deriving Repr, DecidableEq

/-- The static `mock_comparisons` table: ordered uppercase provider pair to
instance-type to entry.  For `("AWS", "AZURE")` / `"p3.2xlarge"` the source
stores `aws_price: 3.06, azure_price: 2.80`, here `aPrice := 306`,
`bPrice := 280`. -/
def mockComparisons : List ((String × String) × List (String × CompEntry)) :=
  [ (("AWS", "AZURE"),
      [ ("p3.2xlarge", ⟨306, 280, "Azure", 85⟩),
        ("p3.8xlarge", ⟨1224, 1120, "Azure", 85⟩) ]),
    (("AWS", "GCP"),
      [ ("p3.2xlarge", ⟨306, 290, "GCP", 52⟩) ]),
    (("AZURE", "GCP"),
      [ ("NC6", ⟨90, 70, "GCP", 222⟩) ]) ]

/-- `key in mock_comparisons and instance_type in mock_comparisons[key]`,
then the indexed entry. -/
def lookupComparison (k : String × String) (instanceType : String) : Option CompEntry :=
  (mockComparisons.lookup k).bind fun m => m.lookup instanceType

/-- The response payload of the `/compare-prices` route.  `price1` is the
number returned under the `"<provider1, lowercased>_price"` field of the
response dict and `price2` the one under provider2's field (cents). -/
structure CompResult where
  instance_type : String
  provider1 : String
  price1 : Nat
  provider2 : String
  price2 : Nat
  recommendation : String
  savings_percent : Nat
deriving Repr, DecidableEq

/-- The `/compare-prices` handler.  Both providers are uppercased; the pair
is looked up directly, then reversed.  In the direct branch the response
reads `data[f"{provider1.lower()}_price"]`, the first stored price.  In the
reversed branch it reads `data[f"{reverse_key[0].lower()}_price"]` for
provider1 — and `reverse_key[0]` is provider2, whose name is the first
component of the stored key, so the transcription of that branch also puts
the first stored price (provider2's) under provider1's field.  A miss in
both orders is the 404 (`none`). -/
def comparePrices (provider1 provider2 instanceType : String) : Option CompResult :=
  let p1 := upperStr provider1
  let p2 := upperStr provider2
  match lookupComparison (p1, p2) instanceType with
  | some d => some ⟨instanceType, p1, d.aPrice, p2, d.bPrice, d.recommendation, d.savings_percent⟩
  | none =>
    match lookupComparison (p2, p1) instanceType with
    | some d => some ⟨instanceType, p1, d.aPrice, p2, d.bPrice, d.recommendation, d.savings_percent⟩
    | none => none

/-- The savings percentage of a pair of prices (cents), in tenths of a
percent, rounded half up to one decimal place: with `mx := max a b` and
`mn := min a b`, the exact percentage is `(mx - mn) / mx * 100`, so the
value in tenths is `1000 * (mx - mn) / mx`, and rounding half up to an
integer number of tenths is `⌊1000 * (mx - mn) / mx + 1 / 2⌋`, which over
the common denominator `2 * mx` is the integer division below.  (No shipped
entry sits on a rounding midpoint, so every rounding convention agrees.) -/
def roundedSavingsTenths (a b : Nat) : Nat :=
  (2000 * (max a b - min a b) + max a b) / (2 * max a b)

/-- The ComparisonEntry invariant of the spec: the recommendation names the
cheaper provider of the key pair (the stored names are uppercase, the
recommendation mixed-case, so the comparison is on uppercased names), and
the savings percentage is the relative difference of the two prices,
rounded to one decimal. -/
def entryOk (pair : String × String) (e : CompEntry) : Bool :=
  (if e.aPrice < e.bPrice then upperStr e.recommendation == pair.1
   else if e.bPrice < e.aPrice then upperStr e.recommendation == pair.2
   else true) &&
  (e.savings_percent == roundedSavingsTenths e.aPrice e.bPrice)

/-! ## Trend aggregator (`src/tools/external_api.py`, `market-trends` route) -/

/-- One per-provider trend record of the static `trends["providers"]` dict.
`change_percent` is in tenths of a percent (`-2.1` ↦ `-21`). -/
structure TrendRec where
  trend : String
  change_percent : Int
deriving Repr, DecidableEq

/-- The static per-provider table, in source order. -/
def trendsProviders : List (String × TrendRec) :=
  [ ("AWS", ⟨"stable", -21⟩),
    ("Azure", ⟨"decreasing", -85⟩),
    ("GCP", ⟨"decreasing", -63⟩) ]

/-- The hardcoded `overall_trend` field of the static `trends` dict. -/
def overallTrend : String := "prices_decreasing"

/-- The hardcoded `average_change_percent` field of the static `trends`
dict: the source's `-5.2`, in tenths. -/
def averageChangePercentStored : Int := -52

/-- The arithmetic mean of the stored `change_percent` values, rounded half
up to one decimal place, in tenths of a percent.  This is the spec-side
definition of `average_change_percent` (spec §4.3: "the arithmetic mean of
all `change_percent` values"), written for comparison with the hardcoded
value the code returns: with `s` the sum of the stored tenths and `n` their
count, the mean in tenths is `s / n` and rounding half up is
`⌊s / n + 1 / 2⌋ = ⌊(2 * s + n) / (2 * n)⌋`, the (flooring) integer
division below. -/
def specAverageChangeTenths : Int :=
  (2 * (trendsProviders.map fun pr => pr.2.change_percent).sum + trendsProviders.length) /
    (2 * (trendsProviders.length : Int))

/-- The response shapes of the `/market-trends` route: one provider's record,
the full table with the aggregate fields, or the 404. -/
inductive TrendsResult where
  | single (provider : String) (record : TrendRec)
  | all (overall : String) (average : Int) (providers : List (String × TrendRec))
  | notFound (provider : String)
deriving Repr, DecidableEq

/-- The `/market-trends` handler: with a truthy provider argument, uppercase
it and look it up in the per-provider table (miss is a 404); otherwise
return the full static dict. -/
def getMarketTrends (provider : Option String) : TrendsResult :=
  match provider with
  | none => .all overallTrend averageChangePercentStored trendsProviders
  | some p =>
    if p = "" then .all overallTrend averageChangePercentStored trendsProviders
    else
      let pu := upperStr p
      match trendsProviders.lookup pu with
      | some t => .single pu t
      | none => .notFound pu

/-! ## Knowledge store (`src/tools/vector_store.py`) -/

/-- One seed knowledge document: content text and string metadata pairs.
The source also attaches a fresh `uuid4` id to each; the ids are random and
opaque, so they are not part of the model. -/
structure KnowledgeDoc where
  content : String
  metadata : List (String × String)
deriving Repr, DecidableEq

/-- The seed documents of `VectorStoreTool._populate_initial_data`. -/
def initialDocuments : List KnowledgeDoc :=
  [ ⟨"AWS P3 instances are optimized for machine learning and high-performance computing workloads. They feature NVIDIA Tesla V100 GPUs with 16GB or 32GB of GPU memory.",
      [("provider", "AWS"), ("instance_family", "P3"), ("gpu_type", "V100"), ("use_case", "machine_learning")]⟩,
    ⟨"Azure NC series VMs are designed for compute-intensive and graphics-intensive applications. They feature NVIDIA Tesla K80 GPUs.",
      [("provider", "Azure"), ("instance_family", "NC"), ("gpu_type", "K80"), ("use_case", "graphics_compute")]⟩,
    ⟨"Google Cloud Platform offers GPU instances with various NVIDIA GPU types. They provide flexible pricing models including on-demand and preemptible instances.",
      [("provider", "GCP"), ("gpu_types", "K80, P100, V100, A100"), ("pricing_models", "on-demand, preemptible"), ("use_case", "flexible_compute")]⟩,
    ⟨"Cost optimization strategies for GPU instances: 1) Use spot/preemptible instances for non-critical workloads, 2) Choose the right instance size based on your workload requirements, 3) Consider reserved instances for long-term usage.",
      [("topic", "cost_optimization"), ("strategies", "spot_instances, right_sizing, reserved_instances"), ("applicable_providers", "AWS, Azure, GCP")]⟩,
    ⟨"AWS pricing: P3.2xlarge costs $3.06/hour, P3.8xlarge costs $12.24/hour, P3.16xlarge costs $24.48/hour in us-east-1 region.",
      [("provider", "AWS"), ("region", "us-east-1"), ("instances", "p3.2xlarge, p3.8xlarge, p3.16xlarge"), ("prices", "3.06, 12.24, 24.48")]⟩,
    ⟨"Azure pricing: NC6 costs $0.90/hour, NC12 costs $1.80/hour, NC24 costs $3.60/hour in East US region.",
      [("provider", "Azure"), ("region", "East US"), ("instances", "NC6, NC12, NC24"), ("prices", "0.90, 1.80, 3.60")]⟩,
    ⟨"GCP pricing: n1-standard-8 with K80 GPU costs $0.70/hour, n1-standard-16 costs $1.40/hour, n1-standard-32 costs $2.80/hour in us-central1.",
      [("provider", "GCP"), ("region", "us-central1"), ("instances", "n1-standard-8, n1-standard-16, n1-standard-32"), ("prices", "0.70, 1.40, 2.80")]⟩ ]

/-- `VectorStoreTool._initialize_collection`: reuse the existing collection
when `get_collection` succeeds, otherwise (the exception path, meaning the
collection does not exist) create it and populate the seed documents. -/
def initializeCollection (existing : Option (List KnowledgeDoc)) : List KnowledgeDoc :=
  match existing with
  | some docs => docs
  | none => initialDocuments

/-! ## Tool dispatch (`src/agents/cloud_pricing_agent.py`) -/

/-- The names of the four tools registered in `CloudPricingAgent._create_agent`. -/
def registeredToolNames : List String :=
  ["search_gpu_pricing", "compare_cloud_prices", "get_market_trends", "search_knowledge_base"]

/-- The four component operations a tool call can invoke. -/
inductive ComponentOp where
  | catalogSearch
  | comparator
  | trendAggregator
  | knowledgeRetriever
deriving Repr, DecidableEq

/-- A dispatch either invokes exactly one component or rejects the tool
name without invoking anything. -/
inductive DispatchOutcome where
  | invoked (c : ComponentOp)
  | invalidArgument (tool_name : String)
deriving Repr, DecidableEq

/-- Modelled from the spec: the Tool Dispatcher of §4.5.  The repository
only registers the four `Function` tools in `CloudPricingAgent._create_agent`;
the dispatch loop that routes a tool name to the registered function lives
in the external agno framework, outside the repository.  Per the spec, a
`tool_name` outside the fixed registry is rejected as `InvalidArgument` and
no component is invoked; a registered name invokes its component. -/
def dispatch (tool_name : String) : DispatchOutcome :=
  if tool_name = "search_gpu_pricing" then .invoked .catalogSearch
  else if tool_name = "compare_cloud_prices" then .invoked .comparator
  else if tool_name = "get_market_trends" then .invoked .trendAggregator
  else if tool_name = "search_knowledge_base" then .invoked .knowledgeRetriever
  else .invalidArgument tool_name

/-! ## General lemmas about the catalog search -/

/-- A key absent from the key column of an association list has no lookup. -/
theorem lookup_eq_none_of_not_mem {β : Type} {l : List (String × β)} {p : String}
    (h : p ∉ l.map Prod.fst) : l.lookup p = none := by
  induction l with
  | nil => rfl
  | cons kv rest ih =>
    obtain ⟨k, v⟩ := kv
    simp only [List.map_cons, List.mem_cons, not_or] at h
    obtain ⟨h1, h2⟩ := h
    have hb : (p == k) = false := beq_eq_false_iff_ne.mpr h1
    simp [List.lookup, hb, ih h2]

/-- With duplicate-free keys (true of any Python dict), lookup of the key
of a member pair returns that pair's value. -/
theorem lookup_eq_some_of_mem_nodup {β : Type} {l : List (String × β)}
    (hnd : (l.map Prod.fst).Nodup) {k : String} {v : β} (hm : (k, v) ∈ l) :
    l.lookup k = some v := by
  induction l with
  | nil => simp at hm
  | cons kv rest ih =>
    obtain ⟨k0, v0⟩ := kv
    simp only [List.map_cons, List.nodup_cons] at hnd
    rcases List.mem_cons.mp hm with heq | hmem
    · obtain ⟨rfl, rfl⟩ := Prod.mk.injEq .. ▸ heq
      simp [List.lookup]
    · have hk : k ≠ k0 := by
        rintro rfl
        exact hnd.1 (List.mem_map.mpr ⟨(k, v), hmem, rfl⟩)
      have hb : (k == k0) = false := beq_eq_false_iff_ne.mpr hk
      simp [List.lookup, hb, ih hnd.2 hmem]

/-- Membership in the per-provider loop body: exactly the rows passing all
filters, tagged with the provider. -/
theorem mem_rowToResults {prov : String} {g : Option String} {m x : Option Int}
    {rows : GpuRows} {r : SearchResult} :
    r ∈ rowToResults prov g m x rows ↔
      ∃ row ∈ rows, rowMatches g m x row.2 = true ∧ r = ⟨prov, row.1, row.2⟩ := by
  simp only [rowToResults, List.mem_filterMap]
  constructor
  · rintro ⟨row, hrow, hsome⟩
    by_cases hc : rowMatches g m x row.2
    · rw [if_pos hc] at hsome
      injection hsome with h
      exact ⟨row, hrow, hc, h.symm⟩
    · rw [if_neg hc] at hsome
      cases hsome
  · rintro ⟨row, hrow, hc, rfl⟩
    exact ⟨row, hrow, by rw [if_pos hc]⟩

/-! ## Claim theorems -/

/-- Claim C1.  The claim fails on the code: `compare(A,B,k)` and
`compare(B,A,k)` do report the same recommendation and savings, but the
reversed-order lookup attributes the prices to the wrong providers.  The
stored entry for `("AWS","AZURE")`/`"p3.2xlarge"` has AWS at 306 cents and
Azure at 280 (third conjunct), yet the call with the providers reversed
(`provider1 = "Azure"`) returns 306 — AWS's stored price — under the
`azure_price` field (`price1`) and 280 under `aws_price` (`price2`),
contradicting the recommendation "Azure" it returns alongside.  The claim's
required behavior (Azure's 280 under Azure) is what the spec states; the
code's index arithmetic in the reversed branch picks `reverse_key[0]`
(provider2) for provider1's field, a slip. -/
theorem compare_reversed_order_misattributes_prices :
    comparePrices "AWS" "Azure" "p3.2xlarge" =
      some ⟨"p3.2xlarge", "AWS", 306, "AZURE", 280, "Azure", 85⟩ ∧
    comparePrices "Azure" "AWS" "p3.2xlarge" =
      some ⟨"p3.2xlarge", "AZURE", 306, "AWS", 280, "Azure", 85⟩ ∧
    lookupComparison ("AWS", "AZURE") "p3.2xlarge" = some ⟨306, 280, "Azure", 85⟩ := by
  decide

/-- Claim C2.  The claim fails on the code: the no-provider trends response
returns the hardcoded `average_change_percent` of -5.2 (here -52 tenths),
while the arithmetic mean of the stored per-provider values
(-2.1, -8.5, -6.3) rounded to one decimal is -5.6 (here -56 tenths), as
the spec states.  The hardcoded aggregate contradicts the code's own
per-provider data. -/
theorem trends_average_is_hardcoded_not_mean :
    getMarketTrends none = .all overallTrend averageChangePercentStored trendsProviders ∧
    averageChangePercentStored = -52 ∧
    specAverageChangeTenths = -56 ∧
    averageChangePercentStored ≠ specAverageChangeTenths := by
  decide

/-- Claim C3 counterexample.  The claim quantifies over every combination
of supplied filters, but a supplied `max_price = 0` (falsy in Python) is
skipped rather than applied: the search then returns the AWS p3.2xlarge
record priced at 306 cents, which does not satisfy
`price_per_hour ≤ max_price`. -/
theorem search_zero_max_price_counterexample :
    (⟨"AWS", "p3.2xlarge", ⟨"P3.2xlarge", "V100", 1, 8, 61, 306, "us-east-1"⟩⟩ : SearchResult)
      ∈ searchGpuPricing createDefaultData none none none (some 0) ∧
    ¬ ((306 : Int) ≤ 0) := by
  decide

/-- Claim C3 (amended): every record returned by the catalog search
satisfies every supplied filter whose value is truthy (a non-empty string,
a non-zero number); zero or empty filter values are skipped by the code's
truthiness tests.  For any data and any filters, a returned record matches
a truthy provider filter exactly, a truthy `gpu_type` filter exactly, is at
least a non-zero `min_gpu_count`, and costs at most a non-zero `max_price`
(both bounds inclusive). -/
theorem search_results_satisfy_truthy_filters
    (data : PricingData) (p g : Option String) (m x : Option Int) (r : SearchResult)
    (hr : r ∈ searchGpuPricing data p g m x) :
    (∀ s, p = some s → s ≠ "" → r.provider = s) ∧
    (∀ s, g = some s → s ≠ "" → r.data.gpu_type = s) ∧
    (∀ n, m = some n → n ≠ 0 → n ≤ (r.data.gpu_count : Int)) ∧
    (∀ q, x = some q → q ≠ 0 → (r.data.price_per_hour : Int) ≤ q) := by
  simp only [searchGpuPricing, List.mem_flatMap] at hr
  obtain ⟨prov, hprov, hmem⟩ := hr
  cases hl : data.lookup prov with
  | none => rw [hl] at hmem; cases hmem
  | some rows =>
    rw [hl] at hmem
    rw [mem_rowToResults] at hmem
    obtain ⟨row, hrow, hmatch, rfl⟩ := hmem
    simp only [rowMatches, Bool.and_eq_true] at hmatch
    obtain ⟨⟨hg, hm⟩, hx⟩ := hmatch
    refine ⟨?_, ?_, ?_, ?_⟩
    · rintro s rfl hs
      simp only [providersToSearch, if_neg hs, List.mem_singleton] at hprov
      exact hprov
    · rintro s rfl hs
      simp only [passGpu, if_neg hs] at hg
      exact of_decide_eq_true hg
    · rintro n rfl hn
      simp only [passMin, if_neg hn] at hm
      exact of_decide_eq_true hm
    · rintro q rfl hq
      simp only [passMax, if_neg hq] at hx
      exact of_decide_eq_true hx

/-- Witness for the amended C3 theorem at a concrete input: the AWS
p3.8xlarge record is returned for provider "AWS", gpu_type "V100",
min_gpu_count 2, max_price 2000 cents, and satisfies all four filters. -/
theorem search_results_satisfy_truthy_filters_witness :
    ((⟨"AWS", "p3.8xlarge", ⟨"P3.8xlarge", "V100", 4, 32, 244, 1224, "us-east-1"⟩⟩ : SearchResult)
        ∈ searchGpuPricing createDefaultData (some "AWS") (some "V100") (some 2) (some 2000)) ∧
    ((∀ s, (some "AWS" : Option String) = some s → s ≠ "" →
        (⟨"AWS", "p3.8xlarge", ⟨"P3.8xlarge", "V100", 4, 32, 244, 1224, "us-east-1"⟩⟩ : SearchResult).provider = s) ∧
     (∀ s, (some "V100" : Option String) = some s → s ≠ "" →
        (⟨"AWS", "p3.8xlarge", ⟨"P3.8xlarge", "V100", 4, 32, 244, 1224, "us-east-1"⟩⟩ : SearchResult).data.gpu_type = s) ∧
     (∀ n, (some 2 : Option Int) = some n → n ≠ 0 →
        n ≤ ((⟨"AWS", "p3.8xlarge", ⟨"P3.8xlarge", "V100", 4, 32, 244, 1224, "us-east-1"⟩⟩ : SearchResult).data.gpu_count : Int)) ∧
     (∀ q, (some 2000 : Option Int) = some q → q ≠ 0 →
        ((⟨"AWS", "p3.8xlarge", ⟨"P3.8xlarge", "V100", 4, 32, 244, 1224, "us-east-1"⟩⟩ : SearchResult).data.price_per_hour : Int) ≤ q)) :=
  ⟨by decide,
    search_results_satisfy_truthy_filters createDefaultData (some "AWS") (some "V100")
      (some 2) (some 2000)
      ⟨"AWS", "p3.8xlarge", ⟨"P3.8xlarge", "V100", 4, 32, 244, 1224, "us-east-1"⟩⟩
      (by decide)⟩

/-- Claim C4 counterexample.  The provider filter is matched
case-sensitively, not case-insensitively: `provider = "aws"` returns the
empty list even though records stored under `"AWS"` exist and are returned
for the exact-case filter. -/
theorem provider_filter_case_sensitive_counterexample :
    searchGpuPricing createDefaultData (some "aws") none none none = [] ∧
    searchGpuPricing createDefaultData (some "AWS") none none none ≠ [] := by
  decide

/-- Claim C4 (amended): the provider filter matches case-sensitively; any
supplied (truthy) provider value that exactly matches no stored provider
key — including a case variant such as "aws" of the stored "AWS" — yields
the empty result rather than an error. -/
theorem unknown_provider_returns_empty
    (data : PricingData) (p : String) (g : Option String) (m x : Option Int)
    (hp : p ≠ "") (h : p ∉ data.map Prod.fst) :
    searchGpuPricing data (some p) g m x = [] := by
  simp [searchGpuPricing, providersToSearch, if_neg hp, lookup_eq_none_of_not_mem h]

/-- Witness for the amended C4 theorem: "aws" is truthy, matches no stored
provider of the default data, and the search returns the empty list. -/
theorem unknown_provider_returns_empty_witness :
    (("aws" : String) ≠ "") ∧ ("aws" ∉ createDefaultData.map Prod.fst) ∧
    searchGpuPricing createDefaultData (some "aws") (some "V100") none none = [] :=
  ⟨by decide, by decide,
    unknown_provider_returns_empty _ _ _ _ _ (by decide) (by decide)⟩

/-- Claim C5.  The claim fails on the code for Azure: the handler
uppercases the requested provider (`"Azure"` ↦ `"AZURE"`) but the static
table's key is the mixed-case `"Azure"`, so the lookup misses and the
route returns the 404 even though Azure's record is stored (first two
conjuncts).  AWS and GCP, whose keys are already uppercase, succeed, and a
provider with no stored record returns the 404 as claimed. -/
theorem trends_azure_lookup_not_found :
    trendsProviders.lookup "Azure" = some ⟨"decreasing", -85⟩ ∧
    getMarketTrends (some "Azure") = .notFound "AZURE" ∧
    getMarketTrends (some "AWS") = .single "AWS" ⟨"stable", -21⟩ ∧
    getMarketTrends (some "GCP") = .single "GCP" ⟨"decreasing", -63⟩ ∧
    getMarketTrends (some "IBM") = .notFound "IBM" := by
  decide

/-- Claim C6 counterexample.  The free-text mode has no cap of 5: the
query "gpu price" takes the gpu-pricing branch and returns the full
unfiltered catalog search result, which has 9 records. -/
theorem search_general_exceeds_five_counterexample :
    searchGeneral createDefaultData "gpu price" =
      .gpuPricing (searchGpuPricing createDefaultData none none none none) ∧
    ¬ ((searchGpuPricing createDefaultData none none none none).length ≤ 5) := by
  decide

/-- Claim C6 (amended): neither search mode caps its results.  The
free-text mode returns, for every gpu-price query, the entire unfiltered
filtered-mode result (9 records on the default data); and the filtered
mode returns every matching record: over any catalog with duplicate-free
provider keys (true of any Python dict), every stored record passing all
supplied filters is in the result. -/
theorem search_no_result_cap :
    (∀ (data : PricingData) (query : String), gpuPriceQuery query = true →
      searchGeneral data query = .gpuPricing (searchGpuPricing data none none none none)) ∧
    (searchGpuPricing createDefaultData none none none none).length = 9 ∧
    (∀ (data : PricingData) (p g : Option String) (m x : Option Int) (r : SearchResult),
      (data.map Prod.fst).Nodup → r ∈ allRecords data → passAll p g m x r = true →
      r ∈ searchGpuPricing data p g m x) := by
  refine ⟨?_, by decide, ?_⟩
  · intro data query hq
    simp [searchGeneral, hq]
  · intro data p g m x r hnd hmem hpass
    simp only [allRecords, List.mem_flatMap, List.mem_map] at hmem
    obtain ⟨pr, hpr, row, hrow, rfl⟩ := hmem
    simp only [passAll, Bool.and_eq_true] at hpass
    obtain ⟨hprov, hmatch⟩ := hpass
    have hkey : pr.1 ∈ providersToSearch data p := by
      cases p with
      | none => exact List.mem_map.mpr ⟨pr, hpr, rfl⟩
      | some s =>
        simp only [passProv] at hprov
        by_cases hs : s = ""
        · subst hs
          simp only [providersToSearch, if_pos rfl]
          exact List.mem_map.mpr ⟨pr, hpr, rfl⟩
        · rw [if_neg hs] at hprov
          simp [providersToSearch, if_neg hs, of_decide_eq_true hprov]
    have hlk : data.lookup pr.1 = some pr.2 := lookup_eq_some_of_mem_nodup hnd hpr
    simp only [searchGpuPricing, List.mem_flatMap]
    refine ⟨pr.1, hkey, ?_⟩
    rw [hlk, mem_rowToResults]
    exact ⟨row, hrow, hmatch, rfl⟩

/-- Witness for the amended C6 theorem: the gpu-price branch applies at
"gpu price", and the Azure NC6 record, which passes the filters
(provider "Azure", gpu_type "K80", at least 1 GPU, at most 100 cents), is
in the filtered result over the default data. -/
theorem search_no_result_cap_witness :
    (gpuPriceQuery "gpu price" = true) ∧
    searchGeneral createDefaultData "gpu price" =
      .gpuPricing (searchGpuPricing createDefaultData none none none none) ∧
    ((createDefaultData.map Prod.fst).Nodup) ∧
    ((⟨"Azure", "NC6", ⟨"NC6", "K80", 1, 6, 56, 90, "East US"⟩⟩ : SearchResult)
      ∈ allRecords createDefaultData) ∧
    (passAll (some "Azure") (some "K80") (some 1) (some 100)
      ⟨"Azure", "NC6", ⟨"NC6", "K80", 1, 6, 56, 90, "East US"⟩⟩ = true) ∧
    ((⟨"Azure", "NC6", ⟨"NC6", "K80", 1, 6, 56, 90, "East US"⟩⟩ : SearchResult)
      ∈ searchGpuPricing createDefaultData (some "Azure") (some "K80") (some 1) (some 100)) :=
  ⟨by decide, search_no_result_cap.1 _ _ (by decide), by decide, by decide, by decide,
    search_no_result_cap.2.2 _ _ _ _ _ _ (by decide) (by decide) (by decide)⟩

/-- Claim C7: every entry of the static comparison table satisfies the
ComparisonEntry invariant — the recommendation names the provider with the
strictly lower stored price, and the stored savings percentage equals the
relative price difference rounded to one decimal. -/
theorem comparison_table_invariant_holds :
    mockComparisons.all (fun kv => kv.2.all fun ie => entryOk kv.1 ie.2) = true := by
  decide

/-- Claim C8: dispatching a tool name outside the registry of the four
registered tools yields the `invalidArgument` outcome, which invokes no
component (the `invoked` outcome is the only one carrying a component
operation). -/
theorem dispatch_unregistered_invalid_argument (tool_name : String)
    (h : tool_name ∉ registeredToolNames) :
    dispatch tool_name = DispatchOutcome.invalidArgument tool_name := by
  simp only [registeredToolNames, List.mem_cons, List.not_mem_nil, or_false, not_or] at h
  obtain ⟨h1, h2, h3, h4⟩ := h
  simp [dispatch, h1, h2, h3, h4]

/-- Witness for the C8 theorem: "get_weather" is not a registered tool and
is dispatched to `invalidArgument`. -/
theorem dispatch_unregistered_invalid_argument_witness :
    ("get_weather" ∉ registeredToolNames) ∧
    dispatch "get_weather" = DispatchOutcome.invalidArgument "get_weather" :=
  ⟨by decide, dispatch_unregistered_invalid_argument _ (by decide)⟩

set_option maxRecDepth 4000 in
/-- Claim C9: with the seed file absent, the catalog loads the built-in
default dataset, which contains the AWS p3.2xlarge record with a V100 GPU
at 306 cents (the source's 3.06) per hour; and with the collection absent,
the knowledge store is created and populated with the 7 built-in seed
documents.  Neither absence fails startup: both fallbacks are total. -/
theorem startup_fallback_defaults :
    loadMockData none = createDefaultData ∧
    (createDefaultData.lookup "AWS").bind (fun rows => rows.lookup "p3.2xlarge") =
      some ⟨"P3.2xlarge", "V100", 1, 8, 61, 306, "us-east-1"⟩ ∧
    initializeCollection none = initialDocuments ∧
    initialDocuments.length = 7 := by
  decide

/-- Claim C10: a `min_gpu_count` of 0 or a `max_price` of 0 is falsy in
the source's truthiness tests and so behaves exactly as an omitted filter,
for every catalog and every other filter; concretely, `max_price = 0` over
the default data returns the same records as no price filter at all. -/
theorem zero_filters_treated_as_absent :
    (∀ (data : PricingData) (p g : Option String) (x : Option Int),
      searchGpuPricing data p g (some 0) x = searchGpuPricing data p g none x) ∧
    (∀ (data : PricingData) (p g : Option String) (m : Option Int),
      searchGpuPricing data p g m (some 0) = searchGpuPricing data p g m none) ∧
    searchGpuPricing createDefaultData none none none (some 0) =
      searchGpuPricing createDefaultData none none none none := by
  have h2 : ∀ (data : PricingData) (p g : Option String) (m : Option Int),
      searchGpuPricing data p g m (some 0) = searchGpuPricing data p g m none := by
    intro data p g m
    simp [searchGpuPricing, rowToResults, rowMatches, passMax]
  refine ⟨?_, h2, h2 _ _ _ _⟩
  intro data p g x
  simp [searchGpuPricing, rowToResults, rowMatches, passMin]

end CloudPricing
